import Mathlib

/-!
Shallow embedding of the yomiyougu library / sync core (a Tauri + Rust
manga reader backend) for checking its natural-language specification.

Sources embedded here:
  * `src-tauri/src/database/operations.rs` — image predicate, archive
    hashing, image counting, title extraction, book import with
    duplicate detection and tombstone restoration;
  * `src-tauri/src/protocol.rs` — the page-protocol image predicates;
  * `src-tauri/src/sync/merge.rs` — the book merge pass and its conflict
    resolution;
  * `src-tauri/src/sync/types.rs` — remote snapshot record shapes;
  * `src-tauri/src/commands/sync.rs` — the token phase of `sync_now_impl`;
  * `src-tauri/src/commands/library.rs` — `delete_book_impl`;
  * `src-tauri/src/error.rs` — the error taxonomy;
  * `src-tauri/src/auth/types.rs` — token expiry and refreshability.

Modelling conventions: timestamps are `Int` milliseconds (the Rust code
converts `NaiveDateTime` to millis with `to_timestamp` before every
comparison, and `from_timestamp` back, so `Int` millis is the faithful
common currency); database tables are Lean lists of rows; the snapshot
`HashMap`s are association lists; byte payloads are `List Nat`; archive
entry names are `String` manipulated through explicit ASCII-level
helpers mirroring the Rust `str` methods used by the source.
-/

namespace Yomiyougu

/-! ## String helpers mirroring the Rust `str` methods used by the source -/

/-- ASCII lowering of one character. The Rust source calls
`str::to_lowercase` only to compare file-name extensions, all of which
are ASCII, so the Unicode tail of `to_lowercase` is irrelevant here. -/
def lowerChar (c : Char) : Char :=
  if c.toNat ≥ 65 ∧ c.toNat ≤ 90 then Char.ofNat (c.toNat + 32) else c

/-- `str::to_lowercase` (ASCII fragment, see `lowerChar`). -/
def asciiLower (s : String) : String := ⟨s.data.map lowerChar⟩

/-- `str::ends_with` on strings. -/
def strEndsWith (s pat : String) : Bool := pat.data.isSuffixOf s.data

/-- `str::starts_with` on strings. -/
def strStartsWith (s pat : String) : Bool := pat.data.isPrefixOf s.data

/-- Substring occurrence over character lists. -/
def listContainsSeq (pat : List Char) : List Char → Bool
  | [] => pat.isEmpty
  | c :: tail => pat.isPrefixOf (c :: tail) || listContainsSeq pat tail

/-- `str::contains` (substring search). -/
def strContains (s pat : String) : Bool := listContainsSeq pat.data s.data

/-- A single ASCII apostrophe, used inside error messages. -/
def squote : String := ⟨[Char.ofNat 39]⟩

/-! ## Image predicates (operations.rs and protocol.rs) -/

/-- `is_image_file` from `database/operations.rs`: accepts only
`.jpg` / `.jpeg` / `.png` (case-insensitively). -/
def operationsIsImageFile (name : String) : Bool :=
  let lower := asciiLower name
  strEndsWith lower ".jpg" || strEndsWith lower ".jpeg" || strEndsWith lower ".png"

/-- `is_image_file` from `protocol.rs`: accepts
`.jpg` / `.jpeg` / `.png` / `.gif` / `.webp` (case-insensitively). -/
def protocolIsImageFile (name : String) : Bool :=
  let lower := asciiLower name
  strEndsWith lower ".jpg" || strEndsWith lower ".jpeg" || strEndsWith lower ".png" ||
    strEndsWith lower ".gif" || strEndsWith lower ".webp"

/-- One entry of a comic archive: its full path inside the archive,
whether it is a directory entry, and its raw byte payload. -/
structure ArchiveEntry where
  name : String
  isDir : Bool
  payload : List Nat
deriving Repr, DecidableEq

/-- The entry filter used by `calculate_zip_hash`, `calculate_rar_hash`,
`count_zip_images` and `count_rar_images` in `database/operations.rs`:
not a directory, `is_image_file` (operations.rs version), name does not
start with a dot and does not contain `/.` — note no `__MACOSX` check. -/
def hashEntryFilter (e : ArchiveEntry) : Bool :=
  !e.isDir && operationsIsImageFile e.name &&
    !(strStartsWith e.name ".") && !(strContains e.name "/.")

/-- The entry filter of `get_zip_image_list` in `protocol.rs`: not a
directory, `is_image_file` (protocol.rs version), no leading dot, no
`/.`, and additionally no `__MACOSX`. -/
def zipListFilter (e : ArchiveEntry) : Bool :=
  !e.isDir && protocolIsImageFile e.name &&
    !(strStartsWith e.name ".") && !(strContains e.name "/.") &&
    !(strContains e.name "__MACOSX")

/-- The entry filter of `get_rar_image_list` in `protocol.rs`: like the
ZIP list filter but without the `__MACOSX` exclusion. -/
def rarListFilter (e : ArchiveEntry) : Bool :=
  !e.isDir && protocolIsImageFile e.name &&
    !(strStartsWith e.name ".") && !(strContains e.name "/.")

/-! ## SHA-256 over byte lists

The Rust source streams image payloads into `sha2::Sha256` and prints
the digest with lowercase-hex formatting. The hash itself is an
external, well-known primitive (FIPS 180-4); it is reproduced here
executably so the embedded hash functions are total Lean functions. -/

/-- Truncation to 32 bits. -/
def u32 (n : Nat) : Nat := n % 4294967296

/-- 32-bit rotate right. -/
def rotr32 (n x : Nat) : Nat := u32 ((x >>> n) ||| (x <<< (32 - n)))

/-- SHA-256 round constants (FIPS 180-4, written in decimal). -/
def sha256K : List Nat :=
  [1116352408, 1899447441, 3049323471, 3921009573, 961987163,
   1508970993, 2453635748, 2870763221, 3624381080, 310598401,
   607225278, 1426881987, 1925078388, 2162078206, 2614888103,
   3248222580, 3835390401, 4022224774, 264347078, 604807628,
   770255983, 1249150122, 1555081692, 1996064986, 2554220882,
   2821834349, 2952996808, 3210313671, 3336571891, 3584528711,
   113926993, 338241895, 666307205, 773529912, 1294757372,
   1396182291, 1695183700, 1986661051, 2177026350, 2456956037,
   2730485921, 2820302411, 3259730800, 3345764771, 3516065817,
   3600352804, 4094571909, 275423344, 430227734, 506948616,
   659060556, 883997877, 958139571, 1322822218, 1537002063,
   1747873779, 1955562222, 2024104815, 2227730452, 2361852424,
   2428436474, 2756734187, 3204031479, 3329325298]

/-- SHA-256 initial hash values (FIPS 180-4, written in decimal). -/
def sha256H0 : List Nat :=
  [1779033703, 3144134277, 1013904242, 2773480762, 1359893119,
   2600822924, 528734635, 1541459225]

/-- Merkle–Damgård padding: append `0x80`, zeros, and the 64-bit
big-endian bit length, reaching a multiple of 64 bytes. -/
def sha256Pad (msg : List Nat) : List Nat :=
  let len := msg.length
  let zeros := (119 - len % 64) % 64
  let bitLen := 8 * len
  msg ++ [0x80] ++ List.replicate zeros 0 ++
    [bitLen >>> 56 % 256, bitLen >>> 48 % 256, bitLen >>> 40 % 256, bitLen >>> 32 % 256,
     bitLen >>> 24 % 256, bitLen >>> 16 % 256, bitLen >>> 8 % 256, bitLen % 256]

/-- Big-endian grouping of bytes into 32-bit words. -/
def bytesToWords : List Nat → List Nat
  | b0 :: b1 :: b2 :: b3 :: rest => (((b0 * 256 + b1) * 256 + b2) * 256 + b3) :: bytesToWords rest
  | _ => []

/-- Split a byte list into 64-byte chunks (structural recursion on a
fuel bound so the definition reduces in the kernel; the fuel
`l.length` always suffices since every chunk consumes a byte). -/
def chunksAux : Nat → List Nat → List (List Nat)
  | 0, _ => []
  | _ + 1, [] => []
  | fuel + 1, b :: rest => ((b :: rest).take 64) :: chunksAux fuel ((b :: rest).drop 64)

/-- Split a byte list into 64-byte chunks. -/
def chunks64 (l : List Nat) : List (List Nat) := chunksAux l.length l

/-- SHA-256 small sigma 0. -/
def sigmaSmall0 (x : Nat) : Nat := rotr32 7 x ^^^ rotr32 18 x ^^^ (x >>> 3)

/-- SHA-256 small sigma 1. -/
def sigmaSmall1 (x : Nat) : Nat := rotr32 17 x ^^^ rotr32 19 x ^^^ (x >>> 10)

/-- SHA-256 big sigma 0. -/
def sigmaBig0 (x : Nat) : Nat := rotr32 2 x ^^^ rotr32 13 x ^^^ rotr32 22 x

/-- SHA-256 big sigma 1. -/
def sigmaBig1 (x : Nat) : Nat := rotr32 6 x ^^^ rotr32 11 x ^^^ rotr32 25 x

/-- SHA-256 choice function. -/
def sha256Ch (x y z : Nat) : Nat := (x &&& y) ^^^ ((x ^^^ 0xffffffff) &&& z)

/-- SHA-256 majority function. -/
def sha256Maj (x y z : Nat) : Nat := (x &&& y) ^^^ (x &&& z) ^^^ (y &&& z)

/-- Message-schedule extension: append `n` further words. -/
def extendSchedule : Nat → List Nat → List Nat
  | 0, w => w
  | n + 1, w =>
    let len := w.length
    let t := u32 (w.getD (len - 16) 0 + sigmaSmall0 (w.getD (len - 15) 0) +
                  w.getD (len - 7) 0 + sigmaSmall1 (w.getD (len - 2) 0))
    extendSchedule n (w ++ [t])

/-- One compression round; the state is the eight working variables. -/
def sha256Round (st : List Nat) (kw : Nat × Nat) : List Nat :=
  match st with
  | [a, b, c, d, e, f, g, h] =>
    let t1 := u32 (h + sigmaBig1 e + sha256Ch e f g + kw.1 + kw.2)
    let t2 := u32 (sigmaBig0 a + sha256Maj a b c)
    [u32 (t1 + t2), a, b, c, u32 (d + t1), e, f, g]
  | other => other

/-- Compress one 64-byte block into the running digest state. -/
def sha256Compress (hs : List Nat) (block : List Nat) : List Nat :=
  let w := extendSchedule 48 (bytesToWords block)
  let st := (sha256K.zip w).foldl sha256Round hs
  (hs.zip st).map (fun p => u32 (p.1 + p.2))

/-- One lowercase hex digit. -/
def hexDigit (n : Nat) : Char :=
  if n < 10 then Char.ofNat (48 + n) else Char.ofNat (87 + n)

/-- Eight lowercase hex digits of a 32-bit word, most significant first. -/
def word32Hex (n : Nat) : List Char :=
  [hexDigit (n >>> 28 % 16), hexDigit (n >>> 24 % 16), hexDigit (n >>> 20 % 16),
   hexDigit (n >>> 16 % 16), hexDigit (n >>> 12 % 16), hexDigit (n >>> 8 % 16),
   hexDigit (n >>> 4 % 16), hexDigit (n % 16)]

/-- SHA-256 digest of a byte list, formatted as the lowercase hex string
the Rust source produces. -/
def sha256Hex (msg : List Nat) : String :=
  let final := (chunks64 (sha256Pad msg)).foldl sha256Compress sha256H0
  ⟨(final.map word32Hex).flatten⟩

/-! ## Sorting as done by `Vec::sort` / `Vec::sort_by` -/

/-- Strict lexicographic order on character lists; on ASCII and on wider
Unicode alike this coincides with the byte order Rust uses for `String`
(UTF-8 byte order equals code-point order). -/
def lexLt : List Char → List Char → Bool
  | [], [] => false
  | [], _ :: _ => true
  | _ :: _, [] => false
  | a :: as, b :: bs =>
    decide (a.toNat < b.toNat) || (decide (a.toNat = b.toNat) && lexLt as bs)

/-- `Ord` on Rust `String`: strict lexicographic byte order. -/
def strLt (a b : String) : Bool := lexLt a.data b.data

/-- Stable insertion relative to a strict order: the new element goes
before the first strictly greater element, after all equal ones. -/
def insertLt (lt : α → α → Bool) (x : α) : List α → List α
  | [] => [x]
  | y :: ys => if lt x y then x :: y :: ys else y :: insertLt lt x ys

/-- Stable insertion sort, modelling Rust's stable `sort` / `sort_by`. -/
def sortLt (lt : α → α → Bool) : List α → List α
  | [] => []
  | x :: xs => insertLt lt x (sortLt lt xs)

/-- Order on `(name, payload)` pairs used by `calculate_rar_hash`:
`a.0.cmp(&b.0)`. -/
def pairLt (a b : String × List Nat) : Bool := strLt a.1 b.1

/-! ## Archive hashing and counting (operations.rs) -/

/-- `ZipArchive::by_name`: fetch the payload of the entry with the given
name. Assumes at most one entry per name (guaranteed by the uniqueness
hypotheses of the theorems that use it). -/
def byName (entries : List ArchiveEntry) (n : String) : List Nat :=
  match entries.find? (fun e => e.name == n) with
  | some e => e.payload
  | none => []

/-- The byte stream `calculate_zip_hash` feeds into SHA-256: names of
entries passing the hash filter, sorted lexicographically, then each
name's payload looked up by `by_name`. -/
def zipHashStream (entries : List ArchiveEntry) : List Nat :=
  let names := (entries.filter hashEntryFilter).map (fun e => e.name)
  ((sortLt strLt names).map (byName entries)).flatten

/-- `calculate_zip_hash` from `database/operations.rs`. -/
def calculate_zip_hash (entries : List ArchiveEntry) : String :=
  sha256Hex (zipHashStream entries)

/-- The `(filename, data)` pairs `calculate_rar_hash` collects, in
archive stream order. -/
def imagePairs (entries : List ArchiveEntry) : List (String × List Nat) :=
  (entries.filter hashEntryFilter).map (fun e => (e.name, e.payload))

/-- The byte stream `calculate_rar_hash` feeds into SHA-256: collected
image pairs stably sorted by name, payloads concatenated. -/
def rarHashStream (entries : List ArchiveEntry) : List Nat :=
  ((sortLt pairLt (imagePairs entries)).map (fun p => p.2)).flatten

/-- `calculate_rar_hash` from `database/operations.rs`. -/
def calculate_rar_hash (entries : List ArchiveEntry) : String :=
  sha256Hex (rarHashStream entries)

/-- An archive as the importer sees it after magic-byte detection. -/
inductive SrcArchive where
  | zip (entries : List ArchiveEntry)
  | rar (entries : List ArchiveEntry)
deriving Repr, DecidableEq

/-- `calculate_archive_hash`: dispatch on the detected container. -/
def calculate_archive_hash : SrcArchive → String
  | .zip es => calculate_zip_hash es
  | .rar es => calculate_rar_hash es

/-- `count_zip_images` / `count_rar_images` / `count_archive_images`:
both counters apply exactly the hash filter. -/
def count_archive_images : SrcArchive → Nat
  | .zip es => (es.filter hashEntryFilter).length
  | .rar es => (es.filter hashEntryFilter).length

/-! ## Error taxonomy (error.rs) -/

/-- `ErrorCode` from `src-tauri/src/error.rs`, all seventeen variants in
source order. -/
inductive ErrorCode where
  | ConfigNotFound
  | ConfigReadFailed
  | ConfigWriteFailed
  | ConfigParseFailed
  | SerializationFailed
  | InvalidSettingKey
  | InvalidSettingValue
  | IoError
  | DatabaseNotInitialized
  | DatabaseConnectionFailed
  | DatabaseMigrationFailed
  | DatabaseQueryFailed
  | DatabasePathError
  | DatabaseError
  | DuplicateEntry
  | NotAuthenticated
  | SyncFailed
deriving Repr, DecidableEq, Fintype

/-- The Rust identifier of each `ErrorCode` variant, for stating which
names belong to the closed taxonomy. -/
def errorCodeName : ErrorCode → String
  | .ConfigNotFound => "ConfigNotFound"
  | .ConfigReadFailed => "ConfigReadFailed"
  | .ConfigWriteFailed => "ConfigWriteFailed"
  | .ConfigParseFailed => "ConfigParseFailed"
  | .SerializationFailed => "SerializationFailed"
  | .InvalidSettingKey => "InvalidSettingKey"
  | .InvalidSettingValue => "InvalidSettingValue"
  | .IoError => "IoError"
  | .DatabaseNotInitialized => "DatabaseNotInitialized"
  | .DatabaseConnectionFailed => "DatabaseConnectionFailed"
  | .DatabaseMigrationFailed => "DatabaseMigrationFailed"
  | .DatabaseQueryFailed => "DatabaseQueryFailed"
  | .DatabasePathError => "DatabasePathError"
  | .DatabaseError => "DatabaseError"
  | .DuplicateEntry => "DuplicateEntry"
  | .NotAuthenticated => "NotAuthenticated"
  | .SyncFailed => "SyncFailed"

/-- `AppError`: a code plus a message. -/
structure AppErr where
  code : ErrorCode
  message : String
deriving Repr, DecidableEq

/-! ## Catalog rows (database/models.rs) -/

/-- The `Book` row (`database/models.rs`), timestamps as `Int` millis. -/
structure Book where
  id : Int
  file_path : String
  filename : String
  file_size : Option Int
  file_hash : Option String
  title : String
  current_page : Int
  total_pages : Int
  last_read_at : Option Int
  added_at : Int
  updated_at : Int
  is_favorite : Bool
  reading_status : String
  uuid : Option String
  deleted_at : Option Int
deriving Repr, DecidableEq

/-- `NewBook` (`database/models.rs`): the fields the importer supplies. -/
structure NewBook where
  file_path : String
  filename : String
  file_size : Option Int
  file_hash : Option String
  title : String
  total_pages : Int
  uuid : Option String
deriving Repr, DecidableEq

/-! ## Catalog operations (database/operations.rs) -/

/-- `find_book_by_hash`: first row whose `file_hash` matches and whose
`deleted_at` is NULL. -/
def find_book_by_hash (catalog : List Book) (h : String) : Option Book :=
  catalog.find? (fun b => b.deleted_at.isNone && b.file_hash == some h)

/-- `find_deleted_book_by_hash`: first row whose `file_hash` matches and
whose `deleted_at` is NOT NULL. -/
def find_deleted_book_by_hash (catalog : List Book) (h : String) : Option Book :=
  catalog.find? (fun b => b.deleted_at.isSome && b.file_hash == some h)

/-- `restore_deleted_book`: clear `deleted_at`, point `file_path` at the
new path, bump `updated_at`; `RETURNING` gives back the updated row
(rows are addressed by the integer primary key `id`). -/
def restore_deleted_book (catalog : List Book) (bid : Int) (newPath : String) (now : Int) :
    List Book × Option Book :=
  let upd := fun (b : Book) =>
    { b with deleted_at := none, file_path := newPath, updated_at := now }
  (catalog.map (fun b => if b.id == bid then upd b else b),
   (catalog.find? (fun b => b.id == bid)).map upd)

/-- `create_book`: insert a `NewBook`. Column defaults are set by the
SQL migrations, which are not under `src/`; the values used here
(`current_page` 1, `reading_status` "unread", `is_favorite` false,
`last_read_at` NULL, `deleted_at` NULL, timestamps `now`) follow the
repository's own tests (`database/tests.rs` asserts exactly these on a
freshly created row). -/
def create_book (catalog : List Book) (nb : NewBook) (newId : Int) (now : Int) :
    List Book × Book :=
  let b : Book :=
    { id := newId, file_path := nb.file_path, filename := nb.filename,
      file_size := nb.file_size, file_hash := nb.file_hash, title := nb.title,
      current_page := 1, total_pages := nb.total_pages, last_read_at := none,
      added_at := now, updated_at := now, is_favorite := false,
      reading_status := "unread", uuid := nb.uuid, deleted_at := none }
  (catalog ++ [b], b)

/-- `extract_title`: strip one known archive extension
(case-insensitively), nothing else. -/
def extract_title (filename : String) : String :=
  let lower := asciiLower filename
  if strEndsWith lower ".cbz" then ⟨filename.data.take (filename.data.length - 4)⟩
  else if strEndsWith lower ".zip" then ⟨filename.data.take (filename.data.length - 4)⟩
  else if strEndsWith lower ".cbr" then ⟨filename.data.take (filename.data.length - 4)⟩
  else if strEndsWith lower ".rar" then ⟨filename.data.take (filename.data.length - 4)⟩
  else if strEndsWith lower ".cb7" then ⟨filename.data.take (filename.data.length - 4)⟩
  else if strEndsWith lower ".7z" then ⟨filename.data.take (filename.data.length - 3)⟩
  else filename

/-- Path components: split on the separator, dropping empty pieces
(the fragment of `std::path::Path::components` relevant to the paths
the app builds). -/
def splitSlashAux (cur : List Char) : List Char → List String
  | [] => [⟨cur.reverse⟩]
  | c :: rest =>
    if c = '/' then (⟨cur.reverse⟩ : String) :: splitSlashAux [] rest
    else splitSlashAux (c :: cur) rest

/-- Components of a slash-separated path. -/
def pathComponents (s : String) : List String :=
  (splitSlashAux [] s.data).filter (fun t => t ≠ "")

/-- `Path::file_name` with the importer's `unwrap_or("unknown")`. -/
def fileNameOf (s : String) : String :=
  (pathComponents s).getLastD "unknown"

/-- The result of a successful import: the new catalog, the returned
book, the backup copy destination if one was made, and the junction row
added if a collection was given. -/
structure ImportOutcome where
  catalog : List Book
  book : Book
  copiedTo : Option String
  junctionAdded : Option (Int × Int)
deriving Repr, DecidableEq

deriving instance DecidableEq for Except

/-- `import_book_from_archive` from `database/operations.rs`.
File-system effects are threaded explicitly: `archive` is the archive
already read and magic-byte detected; `backupDest` is the conflict-free
destination path the backup naming loop would choose inside the library
directory (the `stem_n.ext` loop is a pure function of directory
contents not modelled further, since no claim touches it); `fileSize`
is the `fs::metadata` length of the effective path; `now`, `newId`,
`newUuid` stand for the clock, the fresh SQL row id and `Uuid::new_v4`.
The steps mirror the source order: count images (reject zero), hash,
live-duplicate check (before any copy), tombstone lookup, backup copy,
title extraction, restore-or-create, junction insert. -/
def import_book_from_archive (archive : SrcArchive) (archivePath : String)
    (collectionId : Option Int) (backupFiles : Bool) (backupDest : String)
    (fileSize : Option Int) (catalog : List Book)
    (now : Int) (newId : Int) (newUuid : String) : Except AppErr ImportOutcome :=
  let totalPages := count_archive_images archive
  if totalPages = 0 then
    .error ⟨.IoError, "No images found in archive"⟩
  else
    let bookHash := calculate_archive_hash archive
    match find_book_by_hash catalog bookHash with
    | some existing =>
      .error ⟨.DuplicateEntry,
        "Duplicate of existing book " ++ squote ++ existing.title ++ squote⟩
    | none =>
      let deletedBook := find_deleted_book_by_hash catalog bookHash
      let effectivePath := if backupFiles then backupDest else archivePath
      let copied : Option String := if backupFiles then some backupDest else none
      let effectiveFilename := fileNameOf effectivePath
      let title := extract_title effectiveFilename
      match deletedBook with
      | some d =>
        match restore_deleted_book catalog d.id effectivePath now with
        | (catalog2, some restored) =>
          .ok ⟨catalog2, restored, copied,
               collectionId.map (fun cid => (restored.id, cid))⟩
        | (_, none) =>
          .error ⟨.DatabaseQueryFailed, "Failed to restore book"⟩
      | none =>
        let nb : NewBook :=
          ⟨effectivePath, effectiveFilename, fileSize, some bookHash, title,
           (totalPages : Int), some newUuid⟩
        let res := create_book catalog nb newId now
        .ok ⟨res.1, res.2, copied, collectionId.map (fun cid => (res.2.id, cid))⟩

/-! ## Claim C5 — the image-entry predicate, per site -/

/-- Claim C5 (amended): the image predicates of the three sites, characterized
separately. Only the page-protocol ZIP lister implements the full spec
predicate (five extensions, no leading dot, no `/.`, no `__MACOSX`);
the hasher and the page counter accept only `.jpg`/`.jpeg`/`.png` and do
not exclude `__MACOSX`; the RAR lister accepts the five extensions but
does not exclude `__MACOSX`. -/
theorem image_predicate_by_site (name : String) (payload : List Nat) :
    (zipListFilter ⟨name, false, payload⟩ = true ↔
      ((strEndsWith (asciiLower name) ".jpg" = true ∨
        strEndsWith (asciiLower name) ".jpeg" = true ∨
        strEndsWith (asciiLower name) ".png" = true ∨
        strEndsWith (asciiLower name) ".gif" = true ∨
        strEndsWith (asciiLower name) ".webp" = true) ∧
       strStartsWith name "." = false ∧ strContains name "/." = false ∧
       strContains name "__MACOSX" = false)) ∧
    (hashEntryFilter ⟨name, false, payload⟩ = true ↔
      ((strEndsWith (asciiLower name) ".jpg" = true ∨
        strEndsWith (asciiLower name) ".jpeg" = true ∨
        strEndsWith (asciiLower name) ".png" = true) ∧
       strStartsWith name "." = false ∧ strContains name "/." = false)) ∧
    (rarListFilter ⟨name, false, payload⟩ = true ↔
      ((strEndsWith (asciiLower name) ".jpg" = true ∨
        strEndsWith (asciiLower name) ".jpeg" = true ∨
        strEndsWith (asciiLower name) ".png" = true ∨
        strEndsWith (asciiLower name) ".gif" = true ∨
        strEndsWith (asciiLower name) ".webp" = true) ∧
       strStartsWith name "." = false ∧ strContains name "/." = false)) := by
  simp only [zipListFilter, hashEntryFilter, rarListFilter, protocolIsImageFile,
    operationsIsImageFile, Bool.and_eq_true, Bool.or_eq_true, Bool.not_eq_true',
    Bool.not_false, Bool.not_true]
  tauto

/-- Counterexample for claim C5: concrete entries on which the claimed single
predicate is contradicted. `a.gif` is an image for the page-protocol
listers but not for the hasher or the page counter; `__MACOSX/b.jpg` is
excluded by the ZIP lister but accepted by the hasher, the counter, and
the RAR lister. -/
theorem image_predicate_sites_disagree :
    hashEntryFilter ⟨"a.gif", false, []⟩ = false ∧
    zipListFilter ⟨"a.gif", false, []⟩ = true ∧
    rarListFilter ⟨"a.gif", false, []⟩ = true ∧
    hashEntryFilter ⟨"__MACOSX/b.jpg", false, []⟩ = true ∧
    zipListFilter ⟨"__MACOSX/b.jpg", false, []⟩ = false ∧
    rarListFilter ⟨"__MACOSX/b.jpg", false, []⟩ = true := by decide

/-! ## Claim C8 — empty-archive rejection -/

/-- Claim C8 (amended): an archive with zero image entries is rejected before
any catalog write or file copy, with error code `IoError` and message
"No images found in archive" (the error taxonomy has no `EmptyArchive`
member). -/
theorem empty_archive_rejected_with_io_error (archive : SrcArchive) (archivePath : String)
    (collectionId : Option Int) (backupFiles : Bool) (backupDest : String)
    (fileSize : Option Int) (catalog : List Book) (now newId : Int) (newUuid : String)
    (h : count_archive_images archive = 0) :
    import_book_from_archive archive archivePath collectionId backupFiles backupDest fileSize
      catalog now newId newUuid = .error ⟨.IoError, "No images found in archive"⟩ := by
  unfold import_book_from_archive
  simp [h]

/-- Witness for claim C8: the empty ZIP archive is rejected with `IoError`. -/
theorem empty_archive_rejected_witness :
    count_archive_images (SrcArchive.zip []) = 0 ∧
    import_book_from_archive (SrcArchive.zip []) "/a.zip" none false "" none [] 0 1 "u-0" =
      .error ⟨.IoError, "No images found in archive"⟩ :=
  ⟨rfl, empty_archive_rejected_with_io_error _ _ _ _ _ _ _ _ _ _ rfl⟩

/-- Counterexample for claim C8: a zero-image archive fails with code `IoError`,
and no variant of the closed taxonomy is named `EmptyArchive`, so the
claimed error code does not exist in the code. -/
theorem empty_archive_error_code_counterexample :
    import_book_from_archive (SrcArchive.zip [⟨"readme.txt", false, [1]⟩])
      "/a.zip" none false "" none [] 0 1 "u-0" =
      .error ⟨.IoError, "No images found in archive"⟩ ∧
    (∀ c : ErrorCode, errorCodeName c ≠ "EmptyArchive") := by decide

/-! ## Sorting and lookup lemmas for the content-hash claim -/

theorem mem_insertLt (lt : α → α → Bool) (x y : α) (l : List α) :
    y ∈ insertLt lt x l ↔ y = x ∨ y ∈ l := by
  induction l with
  | nil => simp [insertLt]
  | cons z zs ih =>
    by_cases hb : lt x z = true
    · simp [insertLt, hb]
    · simp [insertLt, hb, ih]
      tauto

theorem mem_sortLt (lt : α → α → Bool) (y : α) (l : List α) :
    y ∈ sortLt lt l ↔ y ∈ l := by
  induction l with
  | nil => simp [sortLt]
  | cons z zs ih => simp [sortLt, mem_insertLt, ih]

theorem map_key_insertLt (key : α → β) (ltb : β → β → Bool) (x : α) (l : List α) :
    (insertLt (fun p q => ltb (key p) (key q)) x l).map key
      = insertLt ltb (key x) (l.map key) := by
  induction l with
  | nil => simp [insertLt]
  | cons z zs ih =>
    by_cases hb : ltb (key x) (key z) = true
    · simp [insertLt, hb]
    · simp [insertLt, hb, ih]

theorem map_key_sortLt (key : α → β) (ltb : β → β → Bool) (l : List α) :
    (sortLt (fun p q => ltb (key p) (key q)) l).map key = sortLt ltb (l.map key) := by
  induction l with
  | nil => rfl
  | cons z zs ih =>
    simp only [sortLt, List.map_cons, map_key_insertLt, ih]

theorem find_key_self {α β : Type} [BEq β] [LawfulBEq β] (key : α → β) (l : List α) (a : α)
    (hl : (l.map key).Nodup) (ha : a ∈ l) :
    l.find? (fun x => key x == key a) = some a := by
  induction l with
  | nil => cases ha
  | cons z zs ih =>
    rw [List.map_cons] at hl
    have hhead := (List.nodup_cons.mp hl).1
    have htail := (List.nodup_cons.mp hl).2
    rcases List.mem_cons.mp ha with rfl | hmem
    · simp [List.find?]
    · have hz : (key z == key a) = false := by
        rw [beq_eq_false_iff_ne]
        intro he
        exact hhead (he ▸ List.mem_map_of_mem key hmem)
      rw [List.find?, hz]
      exact ih htail hmem

/-- With archive-wide unique entry names, `by_name` returns exactly the
payload of the member entry. -/
theorem byName_of_mem (entries : List ArchiveEntry) (e : ArchiveEntry)
    (h : (entries.map (fun x => x.name)).Nodup) (he : e ∈ entries) :
    byName entries e.name = e.payload := by
  unfold byName
  rw [find_key_self (fun x => x.name) entries e h he]

/-- With unique entry names, the ZIP hash stream (names sorted, payloads
fetched by `by_name`) equals the RAR hash stream (pairs sorted, payloads
carried along): container independence of the digest input. -/
theorem zip_stream_eq_rar_stream (entries : List ArchiveEntry)
    (h : (entries.map (fun e => e.name)).Nodup) :
    zipHashStream entries = rarHashStream entries := by
  have hnames : (entries.filter hashEntryFilter).map (fun e => e.name)
      = (imagePairs entries).map Prod.fst := by
    unfold imagePairs
    rw [List.map_map]
    rfl
  have hpair : pairLt = (fun p q => strLt (Prod.fst p) (Prod.fst q)) := rfl
  have hsort : sortLt strLt ((imagePairs entries).map Prod.fst)
      = (sortLt pairLt (imagePairs entries)).map Prod.fst := by
    rw [hpair, map_key_sortLt]
  simp only [zipHashStream, rarHashStream]
  rw [hnames, hsort, List.map_map]
  congr 1
  apply List.map_congr_left
  intro p hp
  have hp2 : p ∈ imagePairs entries := (mem_sortLt pairLt p (imagePairs entries)).mp hp
  have hp3 : ∃ e, (e ∈ entries ∧ hashEntryFilter e = true) ∧ (e.name, e.payload) = p := by
    simpa [imagePairs, List.mem_map, List.mem_filter] using hp2
  rcases hp3 with ⟨e, ⟨hee, -⟩, hep⟩
  show byName entries p.1 = p.2
  rw [← hep]
  exact byName_of_mem entries e h hee

/-! ## Claim C4 — content-hash identity -/

/-- Claim C4 (amended): the digest is SHA-256 (lowercase hex) over the raw
payloads of the entries passing the hash filter (`.jpg`/`.jpeg`/`.png`
only, no leading dot, no `/.`, `__MACOSX` not excluded), taken in
lexicographic name order. Consequently two archives whose filtered
image-entry sets (as name–payload pairs, names unique) coincide hash
equal, regardless of non-image entries, directory entries, on-disk
order, and container format (ZIP vs RAR). The converse direction of the
claimed iff does not hold (see the counterexample). -/
theorem hash_archive_content_determined (esA esB : List ArchiveEntry)
    (hA : (esA.map (fun e => e.name)).Nodup) (hB : (esB.map (fun e => e.name)).Nodup)
    (hsame : sortLt pairLt (imagePairs esA) = sortLt pairLt (imagePairs esB)) :
    calculate_zip_hash esA = calculate_zip_hash esB ∧
    calculate_zip_hash esA = calculate_rar_hash esB ∧
    calculate_rar_hash esA = calculate_rar_hash esB := by
  have h1 : rarHashStream esA = rarHashStream esB := by
    unfold rarHashStream
    rw [hsame]
  have h2 := zip_stream_eq_rar_stream esA hA
  have h3 := zip_stream_eq_rar_stream esB hB
  unfold calculate_zip_hash calculate_rar_hash
  rw [h2, h3, h1]
  exact ⟨rfl, rfl, rfl⟩

/-- Witness for claim C4: two archives listing the same two images in different
order, one with an extra text file and a directory entry, hash equal in
either container. -/
theorem hash_archive_content_witness :
    (([⟨"b.jpg", false, [2]⟩, ⟨"a.jpg", false, [1]⟩, ⟨"notes.txt", false, [9]⟩,
       ⟨"art/", true, []⟩] : List ArchiveEntry).map (fun e => e.name)).Nodup ∧
    (([⟨"a.jpg", false, [1]⟩, ⟨"b.jpg", false, [2]⟩] : List ArchiveEntry).map
      (fun e => e.name)).Nodup ∧
    sortLt pairLt (imagePairs [⟨"b.jpg", false, [2]⟩, ⟨"a.jpg", false, [1]⟩,
        ⟨"notes.txt", false, [9]⟩, ⟨"art/", true, []⟩])
      = sortLt pairLt (imagePairs [⟨"a.jpg", false, [1]⟩, ⟨"b.jpg", false, [2]⟩]) ∧
    calculate_zip_hash [⟨"b.jpg", false, [2]⟩, ⟨"a.jpg", false, [1]⟩,
        ⟨"notes.txt", false, [9]⟩, ⟨"art/", true, []⟩]
      = calculate_rar_hash [⟨"a.jpg", false, [1]⟩, ⟨"b.jpg", false, [2]⟩] :=
  ⟨by decide, by decide, by decide,
   (hash_archive_content_determined _ _ (by decide) (by decide) (by decide)).2.1⟩

/-- Image-entry predicate following the spec's words (§4.1): name ends
case-insensitively in one of the five extensions, no leading dot, no
`/.`, no `__MACOSX`. Used only to compare the code's hash behaviour
against the spec's notion of image content. -/
def specImageEntryPredC4 (e : ArchiveEntry) : Bool :=
  !e.isDir && protocolIsImageFile e.name && !(strStartsWith e.name ".") &&
    !(strContains e.name "/.") && !(strContains e.name "__MACOSX")

/-- The spec-side image content of an archive: name–payload pairs of the
entries the spec calls image entries. -/
def specImagePairsC4 (entries : List ArchiveEntry) : List (String × List Nat) :=
  (entries.filter specImageEntryPredC4).map (fun e => (e.name, e.payload))

/-- Counterexample for claim C4: the two archives differ in the payload of image
entry `b.gif` (so they do not contain the same set of image entries with
byte-identical payloads in the sense of the spec's image predicate), yet
both hashers return equal digests, because `.gif` entries are invisible
to the hash filter. `specImagePairsC4` spells out the spec's notion of
image entry for the comparison. -/
theorem hash_ignores_gif_counterexample :
    calculate_zip_hash [⟨"a.jpg", false, [1]⟩, ⟨"b.gif", false, [2]⟩]
      = calculate_zip_hash [⟨"a.jpg", false, [1]⟩, ⟨"b.gif", false, [9]⟩] ∧
    calculate_rar_hash [⟨"a.jpg", false, [1]⟩, ⟨"b.gif", false, [2]⟩]
      = calculate_rar_hash [⟨"a.jpg", false, [1]⟩, ⟨"b.gif", false, [9]⟩] ∧
    specImagePairsC4 [⟨"a.jpg", false, [1]⟩, ⟨"b.gif", false, [2]⟩]
      ≠ specImagePairsC4 [⟨"a.jpg", false, [1]⟩, ⟨"b.gif", false, [9]⟩] := by decide

/-! ## Claim C2 — restore on re-import -/

/-- Claim C2 (amended): importing an archive whose hash matches a tombstoned
row while no live row matches restores that row in place: no row is
inserted, the row keeps its `id` and `uuid`, `deleted_at` is cleared,
`file_path` points at the new (possibly backup-copied) path, and
`updated_at` is bumped to now. `total_pages` is NOT updated: the
restored row keeps its old value even when the archive's current image
count differs (see the counterexample). -/
theorem import_restores_tombstoned_book (archive : SrcArchive) (archivePath : String)
    (collectionId : Option Int) (backupFiles : Bool) (backupDest : String)
    (fileSize : Option Int) (catalog : List Book) (now newId : Int) (newUuid : String)
    (d : Book)
    (hids : (catalog.map (fun b => b.id)).Nodup)
    (hcount : count_archive_images archive ≠ 0)
    (hlive : find_book_by_hash catalog (calculate_archive_hash archive) = none)
    (hdel : find_deleted_book_by_hash catalog (calculate_archive_hash archive) = some d) :
    import_book_from_archive archive archivePath collectionId backupFiles backupDest fileSize
        catalog now newId newUuid =
      .ok ⟨catalog.map (fun b => if b.id == d.id then
              { b with deleted_at := none,
                       file_path := if backupFiles then backupDest else archivePath,
                       updated_at := now } else b),
           { d with deleted_at := none,
                    file_path := if backupFiles then backupDest else archivePath,
                    updated_at := now },
           (if backupFiles then some backupDest else none),
           collectionId.map (fun cid => (d.id, cid))⟩ := by
  have hdmem : d ∈ catalog := by
    unfold find_deleted_book_by_hash at hdel
    exact List.mem_of_find?_eq_some hdel
  have hfind : catalog.find? (fun b => b.id == d.id) = some d :=
    find_key_self (fun b : Book => b.id) catalog d hids hdmem
  unfold import_book_from_archive
  simp [hcount, hlive, hdel, restore_deleted_book, hfind]

/-- Concrete archive for the C2 instances: one image, payload `[3]`. -/
def c2Arch : SrcArchive := .zip [⟨"p1.jpg", false, [3]⟩]

/-- A tombstoned catalog row whose hash matches `c2Arch` but whose
`total_pages` (7) disagrees with the archive's current image count (1). -/
def c2Deleted : Book :=
  ⟨1, "/old/x.cbz", "x.cbz", none, some (calculate_archive_hash c2Arch), "X",
   1, 7, none, 0, 0, false, "unread", some "u-7", some 5⟩

/-- Witness for claim C2: re-importing `c2Arch` over the tombstoned `c2Deleted`
restores it in place with the same id and uuid and the new path. -/
theorem import_restores_tombstoned_book_witness :
    (([c2Deleted].map (fun b => b.id)).Nodup ∧
     count_archive_images c2Arch ≠ 0 ∧
     find_book_by_hash [c2Deleted] (calculate_archive_hash c2Arch) = none ∧
     find_deleted_book_by_hash [c2Deleted] (calculate_archive_hash c2Arch) = some c2Deleted) ∧
    import_book_from_archive c2Arch "/new/x.cbz" none false "" none [c2Deleted] 100 9 "u-9" =
      .ok ⟨[{ c2Deleted with
              deleted_at := none
              file_path := "/new/x.cbz"
              updated_at := 100 }],
           { c2Deleted with
             deleted_at := none
             file_path := "/new/x.cbz"
             updated_at := 100 },
           none, none⟩ :=
  ⟨⟨by decide, by decide, by decide, by decide⟩,
   import_restores_tombstoned_book c2Arch "/new/x.cbz" none false "" none [c2Deleted]
     100 9 "u-9" c2Deleted (by decide) (by decide) (by decide) (by decide)⟩

/-- Counterexample for claim C2: after the restore the row's `total_pages` is
still 7 although the archive currently holds 1 image — the claim's
"total_pages set to the archive's current image count" fails. -/
theorem restore_total_pages_counterexample :
    (import_book_from_archive c2Arch "/new/x.cbz" none false "" none [c2Deleted]
        100 9 "u-9").map (fun o => (o.book.total_pages, o.book.deleted_at, o.book.uuid))
      = .ok (7, none, some "u-7") ∧
    count_archive_images c2Arch = 1 ∧ (7 : Int) ≠ (1 : Int) := by decide

/-! ## Claim C3 — duplicate import -/

/-- Claim C3: importing an archive whose content hash equals a live row's hash
fails with `DuplicateEntry` whose message names the existing title (the
check runs before any backup copy), and importing the same archive twice
with managed storage off leaves exactly one live row carrying that hash. -/
theorem import_duplicate_entry (archive : SrcArchive)
    (hcount : count_archive_images archive ≠ 0) :
    (∀ (p : String) (cid : Option Int) (bf : Bool) (bd : String) (fs : Option Int)
       (catalog : List Book) (now nid : Int) (u : String) (e : Book),
        find_book_by_hash catalog (calculate_archive_hash archive) = some e →
        import_book_from_archive archive p cid bf bd fs catalog now nid u =
          .error ⟨.DuplicateEntry,
            "Duplicate of existing book " ++ squote ++ e.title ++ squote⟩) ∧
    (∀ (p1 p2 : String) (cid : Option Int) (fs1 fs2 : Option Int) (catalog : List Book)
       (now1 now2 nid1 nid2 : Int) (u1 u2 : String),
        (∀ b ∈ catalog, b.file_hash ≠ some (calculate_archive_hash archive)) →
        ∃ out,
          import_book_from_archive archive p1 cid false "" fs1 catalog now1 nid1 u1 =
            .ok out ∧
          out.copiedTo = none ∧
          import_book_from_archive archive p2 cid false "" fs2 out.catalog now2 nid2 u2 =
            .error ⟨.DuplicateEntry,
              "Duplicate of existing book " ++ squote ++ out.book.title ++ squote⟩ ∧
          (out.catalog.filter (fun b =>
              b.file_hash == some (calculate_archive_hash archive) &&
                b.deleted_at.isNone)).length = 1) := by
  constructor
  · intro p cid bf bd fs catalog now nid u e hlive
    unfold import_book_from_archive
    simp [hcount, hlive]
  · intro p1 p2 cid fs1 fs2 catalog now1 now2 nid1 nid2 u1 u2 hfresh
    have hl1 : find_book_by_hash catalog (calculate_archive_hash archive) = none := by
      unfold find_book_by_hash
      rw [List.find?_eq_none]
      intro b hb
      simp only [Bool.and_eq_true, beq_iff_eq, not_and]
      intro _ hcontra
      exact hfresh b hb hcontra
    have hd1 : find_deleted_book_by_hash catalog (calculate_archive_hash archive) = none := by
      unfold find_deleted_book_by_hash
      rw [List.find?_eq_none]
      intro b hb
      simp only [Bool.and_eq_true, beq_iff_eq, not_and]
      intro _ hcontra
      exact hfresh b hb hcontra
    have h1 : import_book_from_archive archive p1 cid false "" fs1 catalog now1 nid1 u1 =
        .ok ⟨catalog ++
              [{ id := nid1, file_path := p1, filename := fileNameOf p1, file_size := fs1,
                 file_hash := some (calculate_archive_hash archive),
                 title := extract_title (fileNameOf p1), current_page := 1,
                 total_pages := (count_archive_images archive : Int), last_read_at := none,
                 added_at := now1, updated_at := now1, is_favorite := false,
                 reading_status := "unread", uuid := some u1, deleted_at := none }],
             { id := nid1, file_path := p1, filename := fileNameOf p1, file_size := fs1,
               file_hash := some (calculate_archive_hash archive),
               title := extract_title (fileNameOf p1), current_page := 1,
               total_pages := (count_archive_images archive : Int), last_read_at := none,
               added_at := now1, updated_at := now1, is_favorite := false,
               reading_status := "unread", uuid := some u1, deleted_at := none },
             none, cid.map (fun c => (nid1, c))⟩ := by
      unfold import_book_from_archive
      simp [hcount, hl1, hd1, create_book]
    refine ⟨_, h1, rfl, ?_, ?_⟩
    · have hlive2 : find_book_by_hash
          (catalog ++
            [{ id := nid1, file_path := p1, filename := fileNameOf p1, file_size := fs1,
               file_hash := some (calculate_archive_hash archive),
               title := extract_title (fileNameOf p1), current_page := 1,
               total_pages := (count_archive_images archive : Int), last_read_at := none,
               added_at := now1, updated_at := now1, is_favorite := false,
               reading_status := "unread", uuid := some u1, deleted_at := none }])
          (calculate_archive_hash archive) =
          some { id := nid1, file_path := p1, filename := fileNameOf p1, file_size := fs1,
                 file_hash := some (calculate_archive_hash archive),
                 title := extract_title (fileNameOf p1), current_page := 1,
                 total_pages := (count_archive_images archive : Int), last_read_at := none,
                 added_at := now1, updated_at := now1, is_favorite := false,
                 reading_status := "unread", uuid := some u1, deleted_at := none } := by
        unfold find_book_by_hash
        rw [List.find?_append]
        rw [show catalog.find? (fun b => b.deleted_at.isNone &&
              (b.file_hash == some (calculate_archive_hash archive))) = none from hl1]
        simp [List.find?]
      unfold import_book_from_archive
      simp [hcount, hlive2]
    · rw [List.filter_append]
      have hnil : catalog.filter (fun b =>
          b.file_hash == some (calculate_archive_hash archive) && b.deleted_at.isNone) = [] := by
        rw [List.filter_eq_nil_iff]
        intro b hb
        simp only [Bool.and_eq_true, beq_iff_eq, not_and]
        intro hcontra _
        exact absurd hcontra (hfresh b hb)
      rw [hnil]
      simp [List.filter]

/-- Concrete archive for the C3 instances, mirroring scenario S1:
images `001.jpg`, `002.jpg`. -/
def c3Arch : SrcArchive := .zip [⟨"001.jpg", false, [1]⟩, ⟨"002.jpg", false, [2]⟩]

/-- A live catalog row whose hash matches `c3Arch`. -/
def c3Live : Book :=
  ⟨4, "/lib/a.cbz", "a.cbz", none, some (calculate_archive_hash c3Arch), "A",
   1, 2, none, 0, 0, false, "unread", some "u-4", none⟩

/-- Witness for claim C3: the duplicate error fires against a concrete live row,
and importing `c3Arch` twice into an empty catalog yields one live row
and then `DuplicateEntry`. -/
theorem import_duplicate_entry_witness :
    count_archive_images c3Arch ≠ 0 ∧
    (find_book_by_hash [c3Live] (calculate_archive_hash c3Arch) = some c3Live ∧
     import_book_from_archive c3Arch "/y/a.cbz" none false "" none [c3Live] 5 2 "u-2" =
       .error ⟨.DuplicateEntry,
         "Duplicate of existing book " ++ squote ++ c3Live.title ++ squote⟩) ∧
    (∃ out,
      import_book_from_archive c3Arch "/y/a.cbz" none false "" none [] 1 1 "u-1" = .ok out ∧
      out.copiedTo = none ∧
      import_book_from_archive c3Arch "/z/a.cbz" none false "" none out.catalog 5 2 "u-2" =
        .error ⟨.DuplicateEntry,
          "Duplicate of existing book " ++ squote ++ out.book.title ++ squote⟩ ∧
      (out.catalog.filter (fun b =>
          b.file_hash == some (calculate_archive_hash c3Arch) &&
            b.deleted_at.isNone)).length = 1) :=
  ⟨by decide,
   ⟨by decide,
    (import_duplicate_entry c3Arch (by decide)).1 "/y/a.cbz" none false "" none [c3Live]
      5 2 "u-2" c3Live (by decide)⟩,
   (import_duplicate_entry c3Arch (by decide)).2 "/y/a.cbz" "/z/a.cbz" none none none []
     1 5 1 2 "u-1" "u-2" (by simp)⟩

/-! ## Snapshot records and the merge engine (sync/types.rs, sync/merge.rs) -/

/-- `RemoteBookState` from `sync/types.rs`. -/
structure RemoteBookState where
  uuid : String
  file_hash : Option String
  title : String
  filename : String
  current_page : Int
  total_pages : Int
  is_favorite : Bool
  reading_status : String
  last_read_at : Option Int
  added_at : Int
  updated_at : Int
  deleted_at : Option Int
deriving Repr, DecidableEq

/-- `ConflictStrategy` from `sync/types.rs` (`LastWriteWins` is default). -/
inductive ConflictStrategy where
  | RemoteWins
  | LocalWins
  | LastWriteWins
deriving Repr, DecidableEq

/-- `ConflictAction` from `sync/merge.rs`. -/
inductive ConflictAction where
  | UseRemote
  | UseLocal
  | NoOp
deriving Repr, DecidableEq

/-- `MergeEngine::resolve_conflict`: deletion dominance first, then the
configured strategy, last-write-wins by timestamps by default. -/
def resolve_conflict (strategy : ConflictStrategy) (local_ts remote_ts _last_sync_at : Int)
    (remote_deleted local_deleted : Bool) : ConflictAction :=
  if remote_deleted && !local_deleted then .UseRemote
  else if local_deleted && !remote_deleted then .UseLocal
  else
    match strategy with
    | .RemoteWins => .UseRemote
    | .LocalWins => .UseLocal
    | .LastWriteWins =>
      if remote_ts > local_ts then .UseRemote
      else if local_ts > remote_ts then .UseLocal
      else .NoOp

/-- `MergeEngine::update_local_book`: the full-sync UPDATE writes
exactly title, current_page, total_pages, is_favorite, reading_status,
last_read_at, updated_at, deleted_at. -/
def update_local_book (b : Book) (r : RemoteBookState) : Book :=
  { b with
    title := r.title
    current_page := r.current_page
    total_pages := r.total_pages
    is_favorite := r.is_favorite
    reading_status := r.reading_status
    last_read_at := r.last_read_at
    updated_at := r.updated_at
    deleted_at := r.deleted_at }

/-- `MergeEngine::update_local_book_progress`: the progress-only UPDATE
writes exactly current_page, reading_status, last_read_at, updated_at. -/
def update_local_book_progress (b : Book) (r : RemoteBookState) : Book :=
  { b with
    current_page := r.current_page
    reading_status := r.reading_status
    last_read_at := r.last_read_at
    updated_at := r.updated_at }

/-- The inline UPDATE in `merge_books` for a hash-matched book under
full sync: rewrite the UUID and sync title and progress fields (note:
neither total_pages nor deleted_at). -/
def rewrite_uuid_full (b : Book) (u : String) (r : RemoteBookState) : Book :=
  { b with
    uuid := some u
    title := r.title
    current_page := r.current_page
    is_favorite := r.is_favorite
    reading_status := r.reading_status
    last_read_at := r.last_read_at
    updated_at := r.updated_at }

/-- The inline UPDATE in `merge_books` for a hash-matched book under
progress-only sync: rewrite the UUID and the progress fields (note: not
even updated_at). -/
def rewrite_uuid_progress (b : Book) (u : String) (r : RemoteBookState) : Book :=
  { b with
    uuid := some u
    current_page := r.current_page
    reading_status := r.reading_status
    last_read_at := r.last_read_at }

/-- `MergeEngine::insert_local_book`: insert a remote book locally with
the `cloud://{uuid}` placeholder path; `file_size` and `deleted_at`
take their SQL defaults (NULL). -/
def insert_local_book (newId : Int) (r : RemoteBookState) : Book :=
  { id := newId, file_path := "cloud://" ++ r.uuid, filename := r.filename,
    file_size := none, file_hash := r.file_hash, title := r.title,
    current_page := r.current_page, total_pages := r.total_pages,
    last_read_at := r.last_read_at, added_at := r.added_at, updated_at := r.updated_at,
    is_favorite := r.is_favorite, reading_status := r.reading_status,
    uuid := some r.uuid, deleted_at := none }

/-- `MergeEngine::book_to_remote`. -/
def book_to_remote (b : Book) : RemoteBookState :=
  { uuid := b.uuid.getD "", file_hash := b.file_hash, title := b.title,
    filename := b.filename, current_page := b.current_page, total_pages := b.total_pages,
    is_favorite := b.is_favorite, reading_status := b.reading_status,
    last_read_at := b.last_read_at, added_at := b.added_at, updated_at := b.updated_at,
    deleted_at := b.deleted_at }

/-- The `local_by_uuid` HashMap collected from the initially loaded
rows; on duplicate keys the later row wins, hence the last match. -/
def findByUuid (db : List Book) (u : String) : Option Book :=
  (db.filter (fun b => b.uuid == some u)).getLast?

/-- The `local_by_hash` HashMap, same collection discipline. -/
def findByHash (db : List Book) (h : String) : Option Book :=
  (db.filter (fun b => b.file_hash == some h)).getLast?

/-- A Diesel `UPDATE ... WHERE id = i` over the table-as-list. -/
def updateById (db : List Book) (i : Int) (f : Book → Book) : List Book :=
  db.map (fun b => if b.id == i then f b else b)

/-- The fresh primary key SQLite assigns on INSERT, modelled as one
past the maximum id present. -/
def freshId (db : List Book) : Int := (db.map (fun b => b.id)).foldl max 0 + 1

/-- `HashMap::get` over the snapshot association list. -/
def snapLookup (snap : List (String × RemoteBookState)) (k : String) :
    Option RemoteBookState :=
  (snap.find? (fun p => p.1 == k)).map (fun p => p.2)

/-- `HashMap::insert` over the snapshot association list: replace the
binding if the key is present, else append. -/
def snapInsert (snap : List (String × RemoteBookState)) (k : String) (v : RemoteBookState) :
    List (String × RemoteBookState) :=
  if snap.any (fun p => p.1 == k) then
    snap.map (fun p => if p.1 == k then (k, v) else p)
  else snap ++ [(k, v)]

/-- One iteration of the first loop of `MergeEngine::merge_books`
("process remote books"): reconcile one snapshot entry against the
local table. `initDb` is the `local_books` vector loaded at the start
(both lookup maps are built from it), `db` the current table state. -/
def applyRemoteBook (strategy : ConflictStrategy) (fullSync : Bool) (lastSyncAt : Int)
    (initDb : List Book) (db : List Book) (kv : String × RemoteBookState) : List Book :=
  match findByUuid initDb kv.1 with
  | some localBook =>
    match resolve_conflict strategy localBook.updated_at kv.2.updated_at lastSyncAt
        kv.2.deleted_at.isSome localBook.deleted_at.isSome with
    | .UseRemote =>
      if fullSync then updateById db localBook.id (fun b => update_local_book b kv.2)
      else updateById db localBook.id (fun b => update_local_book_progress b kv.2)
    | .UseLocal => db
    | .NoOp => db
  | none =>
    if kv.2.deleted_at.isNone then
      match kv.2.file_hash.bind (fun h => findByHash initDb h) with
      | some existing =>
        if fullSync then updateById db existing.id (fun b => rewrite_uuid_full b kv.1 kv.2)
        else updateById db existing.id (fun b => rewrite_uuid_progress b kv.1 kv.2)
      | none =>
        if fullSync then db ++ [insert_local_book (freshId db) kv.2] else db
    else db

/-- One iteration of the second loop of `MergeEngine::merge_books`
("process local books"): push one locally loaded row into the snapshot
when it is newer than both the snapshot entry and the last sync. -/
def applyLocalBook (fullSync : Bool) (lastSyncAt : Int)
    (snap : List (String × RemoteBookState)) (localBook : Book) :
    List (String × RemoteBookState) :=
  match localBook.uuid with
  | none => snap
  | some u =>
    match snapLookup snap u with
    | some remoteBook =>
      if localBook.updated_at > remoteBook.updated_at ∧ localBook.updated_at > lastSyncAt then
        if fullSync then snapInsert snap u (book_to_remote localBook)
        else snapInsert snap u
          { remoteBook with
            current_page := localBook.current_page
            reading_status := localBook.reading_status
            last_read_at := localBook.last_read_at
            updated_at := localBook.updated_at }
      else snap
    | none => if fullSync then snapInsert snap u (book_to_remote localBook) else snap

/-- `MergeEngine::merge_books`: the first loop reconciles every
snapshot entry against the table (lookups against the initially loaded
rows), the second loop walks the initially loaded rows and uploads into
the snapshot. Returns (local table, snapshot books) after the pass. -/
def merge_books (strategy : ConflictStrategy) (fullSync : Bool) (lastSyncAt : Int)
    (db : List Book) (snap : List (String × RemoteBookState)) :
    List Book × List (String × RemoteBookState) :=
  (snap.foldl (applyRemoteBook strategy fullSync lastSyncAt db) db,
   db.foldl (applyLocalBook fullSync lastSyncAt) snap)

/-! ## Claim C1 — deletion dominance across merge -/

/-- The C1 failing input: a local row tombstoned at t=5 while the
snapshot holds a live record with updated_at 10. -/
def c1Local : Book :=
  ⟨1, "/b.cbz", "b.cbz", none, some "h", "B", 0, 10, none, 0, 5, false, "unread",
   some "u", some 5⟩

/-- The C1 remote record: same UUID, live, newer. -/
def c1Remote : RemoteBookState :=
  ⟨"u", some "h", "B", "b.cbz", 3, 10, false, "reading", none, 0, 10, none⟩

/-- Claim C1: evaluating `merge_books` (full sync, LastWriteWins, last sync
at 0) at the failing input. The pass is a no-op: the conflict resolves
to `UseLocal` (deletion dominance), but the second loop pushes the
tombstone only when the local row is strictly newer than both the
remote record and the last sync, which fails here — so the snapshot to
be pushed still carries the live record while the local row stays
tombstoned, contradicting the claim that both sides end up tombstoned. -/
theorem merge_deletion_dominance_snapshot_bug :
    merge_books .LastWriteWins true 0 [c1Local] [("u", c1Remote)]
      = ([c1Local], [("u", c1Remote)]) ∧
    c1Local.deleted_at = some 5 ∧ c1Remote.deleted_at = none ∧
    c1Local.uuid = some "u" ∧ c1Remote.updated_at > c1Local.updated_at := by decide

/-! ## Frame lemmas for the merge pass -/

/-- Fields of a local row that no write of the book merge pass ever
touches: id, file path, filename, file size, file hash, added_at. -/
def mergeFrame (b b' : Book) : Prop :=
  b'.id = b.id ∧ b'.file_path = b.file_path ∧ b'.filename = b.filename ∧
  b'.file_size = b.file_size ∧ b'.file_hash = b.file_hash ∧ b'.added_at = b.added_at

theorem mergeFrame_refl (b : Book) : mergeFrame b b := ⟨rfl, rfl, rfl, rfl, rfl, rfl⟩

theorem mergeFrame_comp {a b c : Book} (h1 : mergeFrame a b) (h2 : mergeFrame b c) :
    mergeFrame a c := by
  obtain ⟨h1a, h1b, h1c, h1d, h1e, h1f⟩ := h1
  obtain ⟨h2a, h2b, h2c, h2d, h2e, h2f⟩ := h2
  exact ⟨h2a.trans h1a, h2b.trans h1b, h2c.trans h1c, h2d.trans h1d,
         h2e.trans h1e, h2f.trans h1f⟩

theorem pointUpdate_mergeFrame (i : Int) (f : Book → Book)
    (hf : ∀ b, mergeFrame b (f b)) (b : Book) :
    mergeFrame b (if b.id == i then f b else b) := by
  by_cases h : (b.id == i) = true
  · simp only [if_pos h]
    exact hf b
  · simp only [if_neg h]
    exact mergeFrame_refl b

/-- Each iteration of the remote loop turns the table into a pointwise
image (under a frame-preserving map) plus possibly one appended row. -/
theorem applyRemoteBook_step (strategy : ConflictStrategy) (fullSync : Bool) (lastSyncAt : Int)
    (initDb acc : List Book) (kv : String × RemoteBookState) :
    ∃ (g : Book → Book) (news : List Book),
      applyRemoteBook strategy fullSync lastSyncAt initDb acc kv = acc.map g ++ news ∧
      ∀ b, mergeFrame b (g b) := by
  unfold applyRemoteBook
  cases hfind : findByUuid initDb kv.1 with
  | some localBook =>
    dsimp only
    cases hres : resolve_conflict strategy localBook.updated_at kv.2.updated_at lastSyncAt
        kv.2.deleted_at.isSome localBook.deleted_at.isSome with
    | UseRemote =>
      cases fullSync with
      | true =>
        exact ⟨fun b => if b.id == localBook.id then update_local_book b kv.2 else b, [],
          by simp [updateById],
          pointUpdate_mergeFrame _ _ (fun c => ⟨rfl, rfl, rfl, rfl, rfl, rfl⟩)⟩
      | false =>
        exact ⟨fun b => if b.id == localBook.id then update_local_book_progress b kv.2 else b, [],
          by simp [updateById],
          pointUpdate_mergeFrame _ _ (fun c => ⟨rfl, rfl, rfl, rfl, rfl, rfl⟩)⟩
    | UseLocal => exact ⟨id, [], by simp, mergeFrame_refl⟩
    | NoOp => exact ⟨id, [], by simp, mergeFrame_refl⟩
  | none =>
    by_cases hdel : kv.2.deleted_at.isNone = true
    · rw [if_pos hdel]
      cases hbind : kv.2.file_hash.bind (fun h => findByHash initDb h) with
      | some existing =>
        cases fullSync with
        | true =>
          exact ⟨fun b => if b.id == existing.id then rewrite_uuid_full b kv.1 kv.2 else b, [],
            by simp [updateById],
            pointUpdate_mergeFrame _ _ (fun c => ⟨rfl, rfl, rfl, rfl, rfl, rfl⟩)⟩
        | false =>
          exact ⟨fun b => if b.id == existing.id then rewrite_uuid_progress b kv.1 kv.2 else b, [],
            by simp [updateById],
            pointUpdate_mergeFrame _ _ (fun c => ⟨rfl, rfl, rfl, rfl, rfl, rfl⟩)⟩
      | none =>
        cases fullSync with
        | true =>
          exact ⟨id, [insert_local_book (freshId acc) kv.2], by simp, mergeFrame_refl⟩
        | false => exact ⟨id, [], by simp, mergeFrame_refl⟩
    · rw [if_neg hdel]
      exact ⟨id, [], by simp, mergeFrame_refl⟩

/-- The whole remote loop: the final table is a frame-preserving image
of the starting table plus appended new rows. -/
theorem phase1_decomp (strategy : ConflictStrategy) (fullSync : Bool) (lastSyncAt : Int)
    (initDb : List Book) :
    ∀ (snapList : List (String × RemoteBookState)) (acc : List Book),
      ∃ (G : Book → Book) (news : List Book),
        snapList.foldl (applyRemoteBook strategy fullSync lastSyncAt initDb) acc
          = acc.map G ++ news ∧ ∀ b, mergeFrame b (G b)
  | [], acc => ⟨id, [], by simp, mergeFrame_refl⟩
  | kv :: rest, acc => by
    obtain ⟨g, n1, hstep, hgf⟩ :=
      applyRemoteBook_step strategy fullSync lastSyncAt initDb acc kv
    obtain ⟨G2, n2, hfold, hG2⟩ := phase1_decomp strategy fullSync lastSyncAt initDb rest
      (applyRemoteBook strategy fullSync lastSyncAt initDb acc kv)
    refine ⟨fun b => G2 (g b), n1.map G2 ++ n2, ?_,
      fun b => mergeFrame_comp (hgf b) (hG2 (g b))⟩
    rw [List.foldl_cons, hfold, hstep, List.map_append, List.map_map, List.append_assoc]
    rfl

/-! ## Claim C9 — merge never touches local file identity -/

/-- Claim C9: the two merge update helpers write exactly the claimed field
sets, and across a whole book merge pass every pre-existing local row
keeps its file_path, filename, file_hash and added_at (new rows are
only ever appended). -/
theorem merge_preserves_local_file_identity (strategy : ConflictStrategy) (fullSync : Bool)
    (lastSyncAt : Int) (db : List Book) (snap : List (String × RemoteBookState)) :
    (∀ (b : Book) (r : RemoteBookState),
      update_local_book b r =
        { b with
          title := r.title
          current_page := r.current_page
          total_pages := r.total_pages
          is_favorite := r.is_favorite
          reading_status := r.reading_status
          last_read_at := r.last_read_at
          updated_at := r.updated_at
          deleted_at := r.deleted_at } ∧
      update_local_book_progress b r =
        { b with
          current_page := r.current_page
          reading_status := r.reading_status
          last_read_at := r.last_read_at
          updated_at := r.updated_at }) ∧
    ∃ (G : Book → Book) (news : List Book),
      (merge_books strategy fullSync lastSyncAt db snap).1 = db.map G ++ news ∧
      ∀ b, (G b).file_path = b.file_path ∧ (G b).filename = b.filename ∧
           (G b).file_hash = b.file_hash ∧ (G b).added_at = b.added_at := by
  refine ⟨fun b r => ⟨rfl, rfl⟩, ?_⟩
  obtain ⟨G, news, h1, h2⟩ := phase1_decomp strategy fullSync lastSyncAt db snap db
  exact ⟨G, news, h1,
    fun b => ⟨(h2 b).2.1, (h2 b).2.2.1, (h2 b).2.2.2.2.1, (h2 b).2.2.2.2.2⟩⟩

/-! ## Progress-only frame (claim C6) -/

/-- Fields untouched by a progress-only (`sync_books = false`,
`sync_progress = true`) book merge: everything except current_page,
reading_status, last_read_at, updated_at and (for hash-matched rows)
uuid. -/
def progressFrame (b b' : Book) : Prop :=
  b'.id = b.id ∧ b'.file_path = b.file_path ∧ b'.filename = b.filename ∧
  b'.file_size = b.file_size ∧ b'.file_hash = b.file_hash ∧ b'.title = b.title ∧
  b'.total_pages = b.total_pages ∧ b'.is_favorite = b.is_favorite ∧
  b'.added_at = b.added_at ∧ b'.deleted_at = b.deleted_at

theorem progressFrame_refl (b : Book) : progressFrame b b :=
  ⟨rfl, rfl, rfl, rfl, rfl, rfl, rfl, rfl, rfl, rfl⟩

theorem progressFrame_comp {a b c : Book} (h1 : progressFrame a b) (h2 : progressFrame b c) :
    progressFrame a c := by
  obtain ⟨h1a, h1b, h1c, h1d, h1e, h1f, h1g, h1h, h1i, h1j⟩ := h1
  obtain ⟨h2a, h2b, h2c, h2d, h2e, h2f, h2g, h2h, h2i, h2j⟩ := h2
  exact ⟨h2a.trans h1a, h2b.trans h1b, h2c.trans h1c, h2d.trans h1d, h2e.trans h1e,
         h2f.trans h1f, h2g.trans h1g, h2h.trans h1h, h2i.trans h1i, h2j.trans h1j⟩

/-- Whether reconciling snapshot entry `kv` would enter the UUID-drift
recovery branch against the local row with id `i` (no local UUID match,
live remote record, hash match on row `i`). -/
def hashRewriteTouches (initDb : List Book) (kv : String × RemoteBookState) (i : Int) : Bool :=
  (findByUuid initDb kv.1).isNone && kv.2.deleted_at.isNone &&
    ((kv.2.file_hash.bind (fun h => findByHash initDb h)).map (fun ex => ex.id == i)).getD false

/-- Whether a local row's UUID is a key of the snapshot. -/
def uuidMatched (snap : List (String × RemoteBookState)) (b : Book) : Bool :=
  (b.uuid.map (fun u => (snapLookup snap u).isSome)).getD false

theorem pointUpdate_progressFrame (i : Int) (f : Book → Book)
    (hf : ∀ b, progressFrame b (f b)) (b : Book) :
    progressFrame b (if b.id == i then f b else b) := by
  by_cases h : (b.id == i) = true
  · simp only [if_pos h]
    exact hf b
  · simp only [if_neg h]
    exact progressFrame_refl b

/-- One remote-loop iteration under progress-only sync is a pointwise
map that preserves the progress frame, and rewrites the UUID only of
rows the UUID-drift branch touches. -/
theorem applyRemoteBook_progress_step (strategy : ConflictStrategy) (lastSyncAt : Int)
    (initDb acc : List Book) (kv : String × RemoteBookState) :
    ∃ g : Book → Book,
      applyRemoteBook strategy false lastSyncAt initDb acc kv = acc.map g ∧
      (∀ b, progressFrame b (g b)) ∧
      (∀ b, hashRewriteTouches initDb kv b.id = false → (g b).uuid = b.uuid) := by
  unfold applyRemoteBook
  cases hfind : findByUuid initDb kv.1 with
  | some localBook =>
    dsimp only
    cases hres : resolve_conflict strategy localBook.updated_at kv.2.updated_at lastSyncAt
        kv.2.deleted_at.isSome localBook.deleted_at.isSome with
    | UseRemote =>
      refine ⟨fun b => if b.id == localBook.id then update_local_book_progress b kv.2 else b,
        by simp [updateById],
        pointUpdate_progressFrame _ _
          (fun c => ⟨rfl, rfl, rfl, rfl, rfl, rfl, rfl, rfl, rfl, rfl⟩),
        fun b _ => ?_⟩
      by_cases h : (b.id == localBook.id) = true
      · simp only [if_pos h]
        rfl
      · simp only [if_neg h]
    | UseLocal => exact ⟨id, by simp, progressFrame_refl, fun b _ => rfl⟩
    | NoOp => exact ⟨id, by simp, progressFrame_refl, fun b _ => rfl⟩
  | none =>
    by_cases hdel : kv.2.deleted_at.isNone = true
    · rw [if_pos hdel]
      cases hbind : kv.2.file_hash.bind (fun h => findByHash initDb h) with
      | some existing =>
        refine ⟨fun b => if b.id == existing.id then rewrite_uuid_progress b kv.1 kv.2 else b,
          by simp [updateById],
          pointUpdate_progressFrame _ _
            (fun c => ⟨rfl, rfl, rfl, rfl, rfl, rfl, rfl, rfl, rfl, rfl⟩),
          fun b htouch => ?_⟩
        have hnotid : (existing.id == b.id) = false := by
          have := htouch
          unfold hashRewriteTouches at this
          simpa [hfind, hdel, hbind] using this
        have hne : ¬ ((b.id == existing.id) = true) := by
          intro he
          rw [beq_iff_eq] at he
          rw [he, beq_self_eq_true] at hnotid
          cases hnotid
        simp only [if_neg hne]
      | none => exact ⟨id, by simp, progressFrame_refl, fun b _ => rfl⟩
    · rw [if_neg hdel]
      exact ⟨id, by simp, progressFrame_refl, fun b _ => rfl⟩

/-- The whole remote loop under progress-only sync: a pointwise map, no
inserted rows; the progress frame holds everywhere and UUIDs survive on
rows no UUID-drift branch touches. -/
theorem phase1_progress_map (strategy : ConflictStrategy) (lastSyncAt : Int)
    (initDb : List Book) :
    ∀ (snapList : List (String × RemoteBookState)) (acc : List Book),
      ∃ G : Book → Book,
        snapList.foldl (applyRemoteBook strategy false lastSyncAt initDb) acc = acc.map G ∧
        (∀ b, progressFrame b (G b)) ∧
        (∀ b, (∀ kv ∈ snapList, hashRewriteTouches initDb kv b.id = false) →
          (G b).uuid = b.uuid)
  | [], acc => ⟨id, by simp, progressFrame_refl, fun b _ => rfl⟩
  | kv :: rest, acc => by
    obtain ⟨g, hstep, hgf, hgu⟩ :=
      applyRemoteBook_progress_step strategy lastSyncAt initDb acc kv
    obtain ⟨G2, hfold, hG2f, hG2u⟩ := phase1_progress_map strategy lastSyncAt initDb rest
      (applyRemoteBook strategy false lastSyncAt initDb acc kv)
    refine ⟨fun b => G2 (g b), ?_,
      fun b => progressFrame_comp (hgf b) (hG2f (g b)), fun b hall => ?_⟩
    · rw [List.foldl_cons, hfold, hstep, List.map_map]
      rfl
    · have hid : (g b).id = b.id := (hgf b).1
      have h2 : (G2 (g b)).uuid = (g b).uuid := by
        apply hG2u
        intro kv2 hkv2
        rw [hid]
        exact hall kv2 (List.mem_cons_of_mem kv hkv2)
      rw [h2, hgu b (hall kv (List.mem_cons_self kv rest))]

/-- Replacing the binding of an existing key leaves the key list
unchanged. -/
theorem snapInsert_keys (snap : List (String × RemoteBookState)) (k : String)
    (v : RemoteBookState) (h : snap.any (fun p => p.1 == k) = true) :
    (snapInsert snap k v).map Prod.fst = snap.map Prod.fst := by
  unfold snapInsert
  rw [if_pos h, List.map_map]
  apply List.map_congr_left
  intro p _
  by_cases hk : (p.1 == k) = true
  · show (if p.1 == k then (k, v) else p).1 = p.1
    rw [if_pos hk]
    exact (beq_iff_eq.mp hk).symm
  · show (if p.1 == k then (k, v) else p).1 = p.1
    rw [if_neg hk]

/-- One local-loop iteration under progress-only sync never adds a key
to the snapshot. -/
theorem applyLocalBook_progress_keys (lastSyncAt : Int)
    (snap : List (String × RemoteBookState)) (b : Book) :
    (applyLocalBook false lastSyncAt snap b).map Prod.fst = snap.map Prod.fst := by
  unfold applyLocalBook
  cases hu : b.uuid with
  | none => rfl
  | some u =>
    dsimp only
    cases hl : snapLookup snap u with
    | none => rfl
    | some r =>
      dsimp only
      by_cases hgt : b.updated_at > r.updated_at ∧ b.updated_at > lastSyncAt
      · rw [if_pos hgt]
        have hany : snap.any (fun p => p.1 == u) = true := by
          unfold snapLookup at hl
          cases hf : snap.find? (fun p => p.1 == u) with
          | none =>
            rw [hf] at hl
            cases hl
          | some p =>
            have hpred := @List.find?_some _ (fun q => q.1 == u) p snap hf
            exact List.any_eq_true.mpr ⟨p, List.mem_of_find?_eq_some hf, hpred⟩
        exact snapInsert_keys snap u _ hany
      · rw [if_neg hgt]

/-- The whole local loop under progress-only sync keeps the snapshot's
key list unchanged: no new book entry is added. -/
theorem phase2_progress_keys (lastSyncAt : Int) :
    ∀ (dbList : List Book) (snap : List (String × RemoteBookState)),
      (dbList.foldl (applyLocalBook false lastSyncAt) snap).map Prod.fst
        = snap.map Prod.fst
  | [], _ => rfl
  | b :: rest, snap => by
    rw [List.foldl_cons,
        phase2_progress_keys lastSyncAt rest (applyLocalBook false lastSyncAt snap b),
        applyLocalBook_progress_keys]

/-! ## Claim C6 — progress-only sync frame -/

/-- Claim C6 (amended): with `sync_books = false` and `sync_progress = true` the book
pass creates no local row (the table is a pointwise image of itself),
adds no entry to the snapshot (key list unchanged), and changes at most
current_page, reading_status, last_read_at, updated_at — title and all
other fields survive on every row, and the uuid survives on every row
matched by UUID, provided no snapshot entry hash-matches a UUID-matched
row under a foreign UUID (the UUID-drift recovery branch, which by
design rewrites uuids of hash-matched rows, spec §4.8). -/
theorem progress_only_sync_frame (strategy : ConflictStrategy) (lastSyncAt : Int)
    (db : List Book) (snap : List (String × RemoteBookState))
    (hclean : ∀ kv ∈ snap, ∀ b ∈ db,
        uuidMatched snap b = true → hashRewriteTouches db kv b.id = false) :
    ∃ G : Book → Book,
      (merge_books strategy false lastSyncAt db snap).1 = db.map G ∧
      (∀ b, progressFrame b (G b)) ∧
      (∀ b ∈ db, uuidMatched snap b = true → (G b).uuid = b.uuid) ∧
      ((merge_books strategy false lastSyncAt db snap).2).map Prod.fst
        = snap.map Prod.fst := by
  obtain ⟨G, h1, h2, h3⟩ := phase1_progress_map strategy lastSyncAt db snap db
  exact ⟨G, h1, h2, fun b hb hm => h3 b (fun kv hkv => hclean kv hkv b hb hm),
    phase2_progress_keys lastSyncAt db snap⟩

/-- The C6 counterexample row: UUID `u1`, hash `H`. -/
def c6xBook : Book :=
  ⟨1, "/a.cbz", "a.cbz", none, some "H", "A", 1, 10, none, 0, 1, false, "unread",
   some "u1", none⟩

/-- The C6 counterexample snapshot entry matching `c6xBook` by UUID. -/
def c6xR1 : RemoteBookState :=
  ⟨"u1", some "H", "A", "a.cbz", 5, 10, false, "reading", none, 0, 10, none⟩

/-- A second snapshot entry with a locally unmatched UUID but the same
file hash, triggering the UUID-drift recovery branch. -/
def c6xR2 : RemoteBookState :=
  ⟨"u2", some "H", "A", "a.cbz", 5, 10, false, "reading", none, 0, 10, none⟩

/-- Counterexample for C6 as frozen: in a progress-only merge the row is
matched by UUID (`u1`) and the remote side wins, yet after the merge its
`uuid` has changed to `u2` — the UUID-drift recovery branch rewrites the
uuid of hash-matched rows even in progress-only mode, so "every other
field ... is unchanged" fails for `uuid` (title and the rest do
survive). -/
theorem progress_only_uuid_rewrite_counterexample :
    (merge_books .LastWriteWins false 0 [c6xBook] [("u1", c6xR1), ("u2", c6xR2)]).1 =
      [{ c6xBook with
         current_page := 5
         reading_status := "reading"
         updated_at := 10
         uuid := some "u2" }] ∧
    c6xBook.uuid = some "u1" ∧
    (snapLookup [("u1", c6xR1), ("u2", c6xR2)] "u1").isSome = true := by decide

/-- The C6 witness row: UUID-matched, older than the remote record. -/
def c6Book : Book :=
  ⟨1, "/a.cbz", "a.cbz", none, some "H", "A", 1, 10, none, 0, 1, false, "unread",
   some "u", none⟩

/-- The C6 witness remote record: newer, with different title and
progress. -/
def c6Remote : RemoteBookState :=
  ⟨"u", some "H", "NEWTITLE", "other.cbz", 9, 12, true, "reading", some 50, 0, 10, none⟩

/-- Witness for claim C6 at a one-row, one-entry instance. -/
theorem progress_only_sync_frame_witness :
    (∀ kv ∈ [("u", c6Remote)], ∀ b ∈ [c6Book],
        uuidMatched [("u", c6Remote)] b = true →
        hashRewriteTouches [c6Book] kv b.id = false) ∧
    ∃ G : Book → Book,
      (merge_books .LastWriteWins false 0 [c6Book] [("u", c6Remote)]).1 = [c6Book].map G ∧
      (∀ b, progressFrame b (G b)) ∧
      (∀ b ∈ [c6Book], uuidMatched [("u", c6Remote)] b = true → (G b).uuid = b.uuid) ∧
      ((merge_books .LastWriteWins false 0 [c6Book] [("u", c6Remote)]).2).map Prod.fst
        = [("u", c6Remote)].map Prod.fst :=
  ⟨by decide, progress_only_sync_frame .LastWriteWins 0 [c6Book] [("u", c6Remote)] (by decide)⟩

/-! ## Token phase of sync_now (commands/sync.rs, auth/types.rs) -/

/-- `SettingValue` (settings/types.rs). The `Float` variant is omitted:
no code path embedded here inspects it. -/
inductive SettingValue where
  | bool (b : Bool)
  | str (s : String)
  | num (n : Int)
deriving Repr, DecidableEq

/-- `Settings::get` over the flattened key–value view of the settings
document. -/
def settingsGet (settings : List (String × SettingValue)) (k : String) : Option SettingValue :=
  (settings.find? (fun p => p.1 == k)).map (fun p => p.2)

/-- `matches!(settings.get(key), Some(SettingValue::Bool(true)))`. -/
def settingBoolTrue (settings : List (String × SettingValue)) (k : String) : Bool :=
  match settingsGet settings k with
  | some (.bool true) => true
  | _ => false

/-- The stored OAuth token (auth/types.rs), the fields the sync path
reads. -/
structure AuthTokenM where
  access_token : String
  refresh_token : Option String
  expires_at : Option Int
deriving Repr, DecidableEq

/-- `AuthToken::is_expired`: expired when now is within 60 seconds of
(or past) the expiry; a token without expiry never expires. -/
def token_is_expired (t : AuthTokenM) (nowSecs : Int) : Bool :=
  match t.expires_at with
  | some e => decide (nowSecs ≥ e - 60)
  | none => false

/-- `AuthToken::can_refresh`: a refresh token is present and non-empty. -/
def token_can_refresh (t : AuthTokenM) : Bool :=
  match t.refresh_token with
  | some r => !(r == "")
  | none => false

/-- Where the pre-network portion of `sync_now_impl` ends up:
an error (recording whether the stored token was cleared), the early
empty result when no sync option is on, or a usable access token
(recording the refreshed token saved back, if any). -/
inductive SyncHalt where
  | fail (e : AppErr) (tokenCleared : Bool)
  | emptyResult
  | proceed (accessToken : String) (savedToken : Option AuthTokenM)
deriving Repr, DecidableEq

/-- The pre-network portion of `sync_now_impl` (commands/sync.rs): the
authentication check, sync-option loading, the all-flags-off early
return, and access-token acquisition with refresh. `refreshResult`
stands for the outcome of `refresh_token_internal`; `envClientId` and
`envClientSecret` for the two environment variables. On refresh failure
the stored token is cleared (`auth::clear_token`; its own failure is
only logged) and the function returns `AppError::sync_failed(...)`. -/
def sync_now_token_phase (authIsAuthenticated : Bool)
    (settings : List (String × SettingValue)) (token : AuthTokenM) (nowSecs : Int)
    (envClientId envClientSecret : Option String)
    (refreshResult : Except String AuthTokenM) : SyncHalt :=
  if !authIsAuthenticated then
    .fail ⟨.NotAuthenticated, "Not authenticated with Google"⟩ false
  else
    let sync_books := settingBoolTrue settings "sync.books"
    let sync_settings := settingBoolTrue settings "sync.settings"
    let sync_progress := settingBoolTrue settings "sync.progress"
    if !sync_books && !sync_settings && !sync_progress then .emptyResult
    else if token_is_expired token nowSecs then
      if !(token_can_refresh token) then
        .fail ⟨.NotAuthenticated, "Not authenticated with Google"⟩ false
      else
        match envClientId with
        | none => .fail ⟨.ConfigReadFailed,
            "Failed to read config: VITE_GOOGLE_CLIENT_ID not set"⟩ false
        | some _ =>
          match envClientSecret with
          | none => .fail ⟨.ConfigReadFailed,
              "Failed to read config: VITE_GOOGLE_CLIENT_SECRET not set"⟩ false
          | some _ =>
            match refreshResult with
            | .ok newToken => .proceed newToken.access_token (some newToken)
            | .error e =>
              .fail ⟨.SyncFailed,
                "Sync failed: Your Google Drive access has expired. Please sign in again. ("
                  ++ e ++ ")"⟩ true
    else .proceed token.access_token none

/-! ## Claim C7 — token-refresh failure -/

/-- Claim C7 (amended): when sync reaches the token phase (authenticated, at
least one sync option on), the stored token is expired, a non-empty
refresh token is present, the OAuth client environment is configured,
and the refresh attempt fails, the stored token is cleared and
`sync_now` returns an error with code `SyncFailed` (message "Sync
failed: Your Google Drive access has expired. Please sign in again.
(...)"), not `NotAuthenticated`. -/
theorem token_refresh_failure_clears_and_fails
    (settings : List (String × SettingValue)) (token : AuthTokenM) (nowSecs : Int)
    (cid csec errMsg : String)
    (hopts : (!(settingBoolTrue settings "sync.books") &&
        !(settingBoolTrue settings "sync.settings") &&
        !(settingBoolTrue settings "sync.progress")) = false)
    (hexp : token_is_expired token nowSecs = true)
    (hcanref : token_can_refresh token = true) :
    sync_now_token_phase true settings token nowSecs (some cid) (some csec)
        (.error errMsg) =
      .fail ⟨.SyncFailed,
        "Sync failed: Your Google Drive access has expired. Please sign in again. ("
          ++ errMsg ++ ")"⟩ true := by
  unfold sync_now_token_phase
  simp [hopts, hexp, hcanref]

/-- Witness for claim C7: a concrete expired-with-refresh-token instance whose
refresh fails. -/
theorem token_refresh_failure_witness :
    ((!(settingBoolTrue [("sync.progress", .bool true)] "sync.books") &&
      !(settingBoolTrue [("sync.progress", .bool true)] "sync.settings") &&
      !(settingBoolTrue [("sync.progress", .bool true)] "sync.progress")) = false ∧
     token_is_expired ⟨"at", some "rt", some 0⟩ 1000 = true ∧
     token_can_refresh ⟨"at", some "rt", some 0⟩ = true) ∧
    sync_now_token_phase true [("sync.progress", .bool true)] ⟨"at", some "rt", some 0⟩
        1000 (some "cid") (some "cs") (.error "expired") =
      .fail ⟨.SyncFailed,
        "Sync failed: Your Google Drive access has expired. Please sign in again. ("
          ++ "expired" ++ ")"⟩ true :=
  ⟨⟨by decide, by decide, by decide⟩,
   token_refresh_failure_clears_and_fails [("sync.progress", .bool true)]
     ⟨"at", some "rt", some 0⟩ 1000 "cid" "cs" "expired" (by decide) (by decide) (by decide)⟩

/-- Counterexample for claim C7: at a concrete refresh-failure input the error
code is `SyncFailed`, which is not the claimed `NotAuthenticated`
(the token is cleared, as the claim says). -/
theorem token_refresh_failure_code_counterexample :
    sync_now_token_phase true [("sync.progress", .bool true)] ⟨"at", some "rt", some 0⟩
        1000 (some "cid") (some "cs") (.error "bad") =
      .fail ⟨.SyncFailed,
        "Sync failed: Your Google Drive access has expired. Please sign in again. (bad)"⟩
        true ∧
    ErrorCode.SyncFailed ≠ ErrorCode.NotAuthenticated := by decide

/-! ## Claim C10 — delete_book and external files -/

/-- Outcome of `delete_book_impl`: whether the local archive file was
removed, whether a cloud deletion was attempted (and succeeded), and
the catalog afterwards. -/
structure DeleteOutcome where
  localFileRemoved : Bool
  cloudDeleteAttempted : Bool
  cloudDeleted : Bool
  catalog : List Book
deriving Repr, DecidableEq

/-- `delete_book_impl` (commands/library.rs). The book row has been
fetched; `appDataDir` is `app_data_dir()` (None on failure);
`fileExists` and `removeOk` are the file-system oracles for
`path.exists()` and `fs::remove_file`; `cloudReady` collapses the
auth-status / token-load / token-refresh chain (each failure merely
skips the cloud call); `cloudDeleteOk` the Drive deletion outcome.
The local file is removed only for a non-`cloud://` path lying inside
the app data directory; every failure in the file and cloud phases is
logged and swallowed; the soft-delete (`operations::delete_book`,
tombstone plus `updated_at` bump) always runs. -/
def delete_book_impl (book : Book) (appDataDir : Option String)
    (fileExists removeOk cloudReady cloudDeleteOk : Bool)
    (catalog : List Book) (now : Int) : DeleteOutcome :=
  let shouldDelete :=
    !(strStartsWith book.file_path "cloud://") &&
      (match appDataDir with
       | some dir => (pathComponents dir).isPrefixOf (pathComponents book.file_path)
       | none => false)
  let removed := shouldDelete && fileExists && removeOk
  let cloudAttempted := book.file_hash.isSome && cloudReady
  { localFileRemoved := removed,
    cloudDeleteAttempted := cloudAttempted,
    cloudDeleted := cloudAttempted && cloudDeleteOk,
    catalog := updateById catalog book.id
      (fun b => { b with deleted_at := some now, updated_at := now }) }

/-- Claim C10: the archive file is removed only when the book's path is a
non-`cloud://` path inside the app data directory (a file imported from
outside app data, or any path when the app data directory is
unavailable, is never deleted), and whatever the file and cloud
outcomes, the catalog row is soft-deleted in place — the table keeps
every row, with the target row tombstoned and its `updated_at` bumped. -/
theorem delete_book_file_scope_and_soft_delete (book : Book) (appDataDir : Option String)
    (fileExists removeOk cloudReady cloudDeleteOk : Bool) (catalog : List Book) (now : Int) :
    (delete_book_impl book appDataDir fileExists removeOk cloudReady cloudDeleteOk
        catalog now).catalog =
      catalog.map (fun b => if b.id == book.id then
        { b with deleted_at := some now, updated_at := now } else b) ∧
    (delete_book_impl book appDataDir fileExists removeOk cloudReady cloudDeleteOk
        catalog now).localFileRemoved =
      (!(strStartsWith book.file_path "cloud://") &&
        (match appDataDir with
         | some dir => (pathComponents dir).isPrefixOf (pathComponents book.file_path)
         | none => false) && fileExists && removeOk) :=
  ⟨rfl, rfl⟩

end Yomiyougu
